import Mathlib

/-!
Verification model of the zetr NES emulator.

Each definition below is a shallow embedding of the corresponding Rust
item, translated from the repository sources. Machine integers are
modelled as Nat with explicit masking and wrapping where the source
relies on it: u8 and u16 wrap-around is written with explicit modulus
65536 or 256, and operations that can panic in Rust, namely indexing out
of bounds and remainder by zero, are modelled by Option with none for
the panic. Fixed-size byte arrays are modelled as functions from Nat to
Nat holding byte values. Signed 16-bit quantities, namely the PPU
scanline counter, are modelled as Int; the i16 wrap at 32767 is not
modelled, and theorems about stepping carry range hypotheses keeping the
model and the source in agreement. Debug print statements and unused
local bindings in the source have no effect on state and are omitted.
-/

namespace Zetr

/-- Nametable mirroring mode, from src/cartridge.rs. -/
inductive Mirroring where
  | horizontal
  | vertical
  | fourScreen
deriving DecidableEq

/-- Cartridge state, from src/cartridge.rs. -/
structure Cartridge where
  prg_rom : List Nat
  chr_rom : List Nat
  mapper : Nat
  mirroring : Mirroring

/-- Cartridge.read_prg from src/cartridge.rs. The source indexes
prg_rom by address modulo 16384, directly, or modulo the length,
according to the length. A direct index out of bounds or a remainder by
a zero length panics in Rust; the model returns none there. -/
def Cartridge.read_prg (c : Cartridge) (address : Nat) : Option Nat :=
  if c.prg_rom.length = 16384 then
    c.prg_rom.get? (address % 16384)
  else if c.prg_rom.length = 32768 then
    c.prg_rom.get? address
  else
    c.prg_rom.get? (address % c.prg_rom.length)

/-- Cartridge.read_chr from src/cartridge.rs: 0 when the CHR bank is
empty, otherwise the byte at address modulo the bank length. -/
def Cartridge.read_chr (c : Cartridge) (address : Nat) : Nat :=
  if c.chr_rom.isEmpty then 0
  else (c.chr_rom.get? (address % c.chr_rom.length)).getD 0

/-- Cartridge.write_chr from src/cartridge.rs: accepted only when the
bank has length 8192, the CHR-RAM case. -/
def Cartridge.write_chr (c : Cartridge) (address data : Nat) : Cartridge :=
  if c.chr_rom.length = 8192 then
    { c with chr_rom := c.chr_rom.set (address % 8192) data }
  else c

/-- Cartridge.dummy from src/cartridge.rs. -/
def Cartridge.dummy : Cartridge :=
  { prg_rom := [], chr_rom := [], mapper := 0, mirroring := Mirroring.horizontal }

/-- Cartridge.new from src/cartridge.rs, on an in-memory byte stream in
place of the file: header check, optional trainer skip, PRG and CHR
extraction with the CHR-RAM fallback. A failing read_exact, that is a
stream shorter than requested, is the error case. -/
def Cartridge.parse (rom : List Nat) : Option Cartridge :=
  if rom.length < 16 then none else
  let header := rom.take 16
  if header.take 4 ≠ [0x4E, 0x45, 0x53, 0x1A] then none else
  let prg_rom_size := header.getD 4 0 * 16384
  let chr_rom_size := header.getD 5 0 * 8192
  let flags6 := header.getD 6 0
  let flags7 := header.getD 7 0
  let mapper := (flags7 &&& 0xF0) ||| (flags6 >>> 4)
  let mirroring := if flags6 &&& 0x01 ≠ 0 then Mirroring.vertical else Mirroring.horizontal
  let rest := rom.drop 16
  if flags6 &&& 0x04 ≠ 0 ∧ rest.length < 512 then none else
  let rest := if flags6 &&& 0x04 ≠ 0 then rest.drop 512 else rest
  if rest.length < prg_rom_size then none else
  let prg_rom := rest.take prg_rom_size
  let rest := rest.drop prg_rom_size
  if 0 < chr_rom_size ∧ rest.length < chr_rom_size then none else
  let chr_rom := if 0 < chr_rom_size then rest.take chr_rom_size else List.replicate 8192 0
  some { prg_rom := prg_rom, chr_rom := chr_rom, mapper := mapper, mirroring := mirroring }

/-- PPU state, from src/ppu.rs. Byte arrays are functions from index to
byte value. -/
structure PPU where
  ctrl : Nat
  mask : Nat
  status : Nat
  oam_addr : Nat
  oam_data : Nat
  scroll : Nat
  addr : Nat
  data : Nat
  vram_addr : Nat
  temp_vram_addr : Nat
  fine_x_scroll : Nat
  write_toggle : Bool
  read_buffer : Nat
  vram : Nat → Nat
  palette_ram : Nat → Nat
  oam : Nat → Nat
  scanline : Int
  cycle : Nat
  frame_complete : Bool
  frame_buffer : Nat → Nat
  bg_next_tile_id : Nat
  bg_next_tile_attrib : Nat
  bg_next_tile_lsb : Nat
  bg_next_tile_msb : Nat
  bg_shifter_pattern_lo : Nat
  bg_shifter_pattern_hi : Nat
  bg_shifter_attrib_lo : Nat
  bg_shifter_attrib_hi : Nat
  nmi_occurred : Bool
  nmi_output : Bool
  nmi_previous : Bool

/-- PPU.new from src/ppu.rs: all fields zeroed except scanline 261. -/
def PPU.new : PPU :=
  { ctrl := 0, mask := 0, status := 0, oam_addr := 0, oam_data := 0,
    scroll := 0, addr := 0, data := 0,
    vram_addr := 0, temp_vram_addr := 0, fine_x_scroll := 0,
    write_toggle := false, read_buffer := 0,
    vram := fun _ => 0, palette_ram := fun _ => 0, oam := fun _ => 0,
    scanline := 261, cycle := 0, frame_complete := false,
    frame_buffer := fun _ => 0,
    bg_next_tile_id := 0, bg_next_tile_attrib := 0,
    bg_next_tile_lsb := 0, bg_next_tile_msb := 0,
    bg_shifter_pattern_lo := 0, bg_shifter_pattern_hi := 0,
    bg_shifter_attrib_lo := 0, bg_shifter_attrib_hi := 0,
    nmi_occurred := false, nmi_output := false, nmi_previous := false }

/-- PPU.ppu_read from src/ppu.rs: pattern tables from the cartridge CHR,
nametable VRAM under the cartridge mirroring rule, palette RAM with the
mirror of entries 10, 14, 18, 1C and the greyscale mask. It does not
mutate the PPU or the cartridge. -/
def PPU.ppu_read (s : PPU) (a : Nat) (cart : Cartridge) : Nat :=
  let a := a &&& 0x3FFF
  if a ≤ 0x1FFF then
    cart.read_chr a
  else if a ≤ 0x3EFF then
    let a := a &&& 0x2FFF
    match cart.mirroring with
    | Mirroring.vertical => s.vram (a &&& 0x7FF)
    | Mirroring.horizontal =>
        if 0x2000 ≤ a ∧ a < 0x2400 then s.vram (a &&& 0x3FF)
        else if 0x2400 ≤ a ∧ a < 0x2800 then s.vram ((a &&& 0x3FF) + 0x400)
        else if 0x2800 ≤ a ∧ a < 0x2C00 then s.vram (a &&& 0x3FF)
        else s.vram ((a &&& 0x3FF) + 0x400)
    | Mirroring.fourScreen => s.vram (a &&& 0x7FF)
  else
    let a := a &&& 0x1F
    let a := if a = 0x10 ∨ a = 0x14 ∨ a = 0x18 ∨ a = 0x1C then a - 0x10 else a
    s.palette_ram a &&& (if s.mask &&& 0x01 ≠ 0 then 0x30 else 0x3F)

/-- PPU.ppu_write from src/ppu.rs, mirroring PPU.ppu_read on the store
side; CHR writes go to the cartridge. -/
def PPU.ppu_write (s : PPU) (a : Nat) (d : Nat) (cart : Cartridge) : PPU × Cartridge :=
  let a := a &&& 0x3FFF
  if a ≤ 0x1FFF then
    (s, cart.write_chr a d)
  else if a ≤ 0x3EFF then
    let a := a &&& 0x2FFF
    let idx :=
      match cart.mirroring with
      | Mirroring.vertical => a &&& 0x7FF
      | Mirroring.horizontal =>
          if 0x2000 ≤ a ∧ a < 0x2400 then a &&& 0x3FF
          else if 0x2400 ≤ a ∧ a < 0x2800 then (a &&& 0x3FF) + 0x400
          else if 0x2800 ≤ a ∧ a < 0x2C00 then a &&& 0x3FF
          else (a &&& 0x3FF) + 0x400
      | Mirroring.fourScreen => a &&& 0x7FF
    ({ s with vram := fun j => if j = idx then d else s.vram j }, cart)
  else
    let a := a &&& 0x1F
    let a := if a = 0x10 ∨ a = 0x14 ∨ a = 0x18 ∨ a = 0x1C then a - 0x10 else a
    ({ s with palette_ram := fun j => if j = a then d else s.palette_ram j }, cart)

/-- PPU.cpu_read from src/ppu.rs: the CPU-visible register reads,
including the STATUS read side effects and the buffered DATA read, which
the source performs against a dummy cartridge. -/
def PPU.cpu_read (s : PPU) (a : Nat) : Nat × PPU :=
  if a = 0x2002 then
    let d := (s.status &&& 0xE0) ||| (s.data &&& 0x1F)
    (d, { s with status := s.status &&& 0x7F, nmi_occurred := false, write_toggle := false })
  else if a = 0x2004 then
    (s.oam s.oam_addr, s)
  else if a = 0x2007 then
    let d := s.data
    let fresh := s.ppu_read s.vram_addr Cartridge.dummy
    let result := if 0x3F00 ≤ s.vram_addr then fresh else d
    (result, { s with data := fresh,
                      vram_addr := (s.vram_addr + (if s.ctrl &&& 0x04 ≠ 0 then 32 else 1)) % 65536 })
  else
    (0, s)

/-- PPU.cpu_write from src/ppu.rs: the CPU-visible register writes,
including the scroll and address write toggles and the DATA write, which
the source performs against a dummy cartridge. -/
def PPU.cpu_write (s : PPU) (a : Nat) (d : Nat) : PPU :=
  if a = 0x2000 then
    { s with ctrl := d,
             temp_vram_addr := (s.temp_vram_addr &&& 0xF3FF) ||| ((d &&& 0x03) <<< 10),
             nmi_output := d &&& 0x80 ≠ 0 }
  else if a = 0x2001 then
    { s with mask := if d = 0x06 then 0x1E else d }
  else if a = 0x2003 then
    { s with oam_addr := d }
  else if a = 0x2004 then
    { s with oam := fun j => if j = s.oam_addr then d else s.oam j,
             oam_addr := (s.oam_addr + 1) % 256 }
  else if a = 0x2005 then
    if s.write_toggle = false then
      { s with fine_x_scroll := d &&& 0x07,
               temp_vram_addr := (s.temp_vram_addr &&& 0xFFE0) ||| (d >>> 3),
               write_toggle := true }
    else
      { s with temp_vram_addr :=
                 ((s.temp_vram_addr &&& 0x8FFF) ||| ((d &&& 0x07) <<< 12)) &&& 0xFC1F
                   ||| ((d &&& 0xF8) <<< 2),
               write_toggle := false }
  else if a = 0x2006 then
    if s.write_toggle = false then
      { s with temp_vram_addr := (s.temp_vram_addr &&& 0x80FF) ||| ((d &&& 0x3F) <<< 8),
               write_toggle := true }
    else
      let t := (s.temp_vram_addr &&& 0xFF00) ||| d
      { s with temp_vram_addr := t, vram_addr := t, write_toggle := false }
  else if a = 0x2007 then
    let (s, _) := s.ppu_write s.vram_addr d Cartridge.dummy
    { s with vram_addr := (s.vram_addr + (if s.ctrl &&& 0x04 ≠ 0 then 32 else 1)) % 65536 }
  else
    s

/-- The 64-entry RGB palette from PPU.get_color_from_palette in
src/ppu.rs. -/
def nes_palette : List (Nat × Nat × Nat) :=
  [ (0x80, 0x80, 0x80), (0x00, 0x3D, 0xA6), (0x00, 0x12, 0xB0), (0x44, 0x00, 0x96),
    (0xA1, 0x00, 0x5E), (0xC7, 0x00, 0x28), (0xBA, 0x06, 0x00), (0x8C, 0x17, 0x00),
    (0x5C, 0x2F, 0x00), (0x10, 0x45, 0x00), (0x05, 0x4A, 0x00), (0x00, 0x47, 0x2E),
    (0x00, 0x41, 0x66), (0x00, 0x00, 0x00), (0x05, 0x05, 0x05), (0x05, 0x05, 0x05),
    (0xC7, 0xC7, 0xC7), (0x00, 0x77, 0xFF), (0x21, 0x55, 0xFF), (0x82, 0x37, 0xFA),
    (0xEB, 0x2F, 0xB5), (0xFF, 0x29, 0x50), (0xFF, 0x22, 0x00), (0xD6, 0x32, 0x00),
    (0xC4, 0x62, 0x00), (0x35, 0x80, 0x00), (0x05, 0x8F, 0x00), (0x00, 0x8A, 0x55),
    (0x00, 0x99, 0xCC), (0x21, 0x21, 0x21), (0x09, 0x09, 0x09), (0x09, 0x09, 0x09),
    (0xFF, 0xFF, 0xFF), (0x0F, 0xD7, 0xFF), (0x69, 0xA2, 0xFF), (0xD4, 0x80, 0xFF),
    (0xFF, 0x45, 0xF3), (0xFF, 0x61, 0x8B), (0xFF, 0x88, 0x33), (0xFF, 0x9C, 0x12),
    (0xFA, 0xBC, 0x20), (0x9F, 0xE3, 0x0E), (0x2B, 0xF0, 0x35), (0x0C, 0xF0, 0xA4),
    (0x05, 0xFB, 0xFF), (0x5E, 0x5E, 0x5E), (0x0D, 0x0D, 0x0D), (0x0D, 0x0D, 0x0D),
    (0xFF, 0xFF, 0xFF), (0xA6, 0xFC, 0xFF), (0xB3, 0xEC, 0xFF), (0xDA, 0xAB, 0xEB),
    (0xFF, 0xA8, 0xF9), (0xFF, 0xAB, 0xB3), (0xFF, 0xD2, 0xB0), (0xFF, 0xEF, 0xA6),
    (0xFF, 0xF7, 0x9C), (0xD7, 0xFF, 0xB3), (0xC5, 0xFF, 0xC4), (0xA6, 0xFF, 0xC8),
    (0xA2, 0xFF, 0xFF), (0xB3, 0xB3, 0xB3), (0x70, 0x70, 0x70), (0x70, 0x70, 0x70) ]

/-- PPU.get_color_from_palette from src/ppu.rs. -/
def PPU.get_color_from_palette (_s : PPU) (index : Nat) : Nat × Nat × Nat :=
  (nes_palette.get? (index &&& 0x3F)).getD (0, 0, 0)

/-- The sprite scan inside PPU.render_pixel in src/ppu.rs: walk the 64
OAM entries in order and stop at the first whose row and column ranges
contain the current position, yielding the hardcoded sprite pixel 1, the
sprite palette, and the priority bit. The source binds a pattern address
it never uses; that dead binding is omitted. -/
def PPU.sprite_scan (s : PPU) (x : Nat) (y : Int) : Option (Nat × Nat × Bool) :=
  (List.range 64).findSome? fun i =>
    let sprite_y : Int := s.oam (i * 4) % 256
    let attributes := s.oam (i * 4 + 2) % 256
    let sprite_x : Int := s.oam (i * 4 + 3) % 256
    let sprite_height : Int := if s.ctrl &&& 0x20 ≠ 0 then 16 else 8
    if sprite_y ≤ y ∧ y < sprite_y + sprite_height then
      if sprite_x ≤ (x : Int) ∧ (x : Int) < sprite_x + 8 then
        let pixel_x := ((x : Int) - sprite_x).toNat
        if pixel_x < 8 then
          some (1, (attributes &&& 0x03) + 4, attributes &&& 0x20 = 0)
        else none
      else none
    else none

/-- The background pixel and palette selection of PPU.render_pixel in
src/ppu.rs: bit 15 minus fine x of the four shift registers when MASK
bit 3 is set. -/
def PPU.bg_pixel_palette (s : PPU) : Nat × Nat :=
  if s.mask &&& 0x08 ≠ 0 then
    let pixel_bit := (15 + 65536 - s.fine_x_scroll % 65536) % 65536
    let bitmask := (1 <<< (pixel_bit % 16)) % 65536
    let p0 := if s.bg_shifter_pattern_lo &&& bitmask ≠ 0 then 1 else 0
    let p1 := if s.bg_shifter_pattern_hi &&& bitmask ≠ 0 then 2 else 0
    let pal0 := if s.bg_shifter_attrib_lo &&& bitmask ≠ 0 then 1 else 0
    let pal1 := if s.bg_shifter_attrib_hi &&& bitmask ≠ 0 then 2 else 0
    (p0 ||| p1, pal0 ||| pal1)
  else (0, 0)

/-- The priority selection, palette resolution and colour lookup of
PPU.render_pixel in src/ppu.rs, producing the RGB triple that is stored
to the framebuffer. -/
def PPU.pixel_color (s : PPU) (x : Nat) (y : Int) : Nat × Nat × Nat :=
  let bg := s.bg_pixel_palette
  let sp :=
    if s.mask &&& 0x10 ≠ 0 then
      match s.sprite_scan x y with
      | some r => r
      | none => (0, 0, false)
    else (0, 0, false)
  let final :=
    if 0 < sp.1 ∧ (bg.1 = 0 ∨ sp.2.2) then (sp.1, sp.2.1) else bg
  let palette_addr :=
    if final.1 = 0 then 0x00
    else if 4 ≤ final.2 then 0x10 + ((final.2 - 4) <<< 2) + final.1
    else 0x00 + (final.2 <<< 2) + final.1
  s.get_color_from_palette (s.palette_ram (palette_addr &&& 0x1F))

/-- PPU.render_pixel from src/ppu.rs: when the position is on screen,
compute the pixel colour and store its three bytes to the framebuffer.
The only field it mutates is frame_buffer. -/
def PPU.render_pixel (s : PPU) : PPU :=
  let x := (s.cycle + 65535) % 65536
  let y := s.scanline
  if x < 256 ∧ 0 ≤ y ∧ y < 240 then
    let color := s.pixel_color x y
    let pixel_index := (y.toNat * 256 + x) * 3
    if pixel_index + 2 < 256 * 240 * 3 then
      { s with frame_buffer := fun j =>
          if j = pixel_index then color.1
          else if j = pixel_index + 1 then color.2.1
          else if j = pixel_index + 2 then color.2.2
          else s.frame_buffer j }
    else s
  else s

/-- PPU.update_shifters from src/ppu.rs. -/
def PPU.update_shifters (s : PPU) : PPU :=
  if s.mask &&& 0x08 ≠ 0 then
    { s with bg_shifter_pattern_lo := (s.bg_shifter_pattern_lo <<< 1) % 65536,
             bg_shifter_pattern_hi := (s.bg_shifter_pattern_hi <<< 1) % 65536,
             bg_shifter_attrib_lo := (s.bg_shifter_attrib_lo <<< 1) % 65536,
             bg_shifter_attrib_hi := (s.bg_shifter_attrib_hi <<< 1) % 65536 }
  else s

/-- PPU.load_background_shifters from src/ppu.rs. -/
def PPU.load_background_shifters (s : PPU) : PPU :=
  { s with
    bg_shifter_pattern_lo := (s.bg_shifter_pattern_lo &&& 0xFF00) ||| (s.bg_next_tile_lsb % 256),
    bg_shifter_pattern_hi := (s.bg_shifter_pattern_hi &&& 0xFF00) ||| (s.bg_next_tile_msb % 256),
    bg_shifter_attrib_lo := (s.bg_shifter_attrib_lo &&& 0xFF00)
      ||| (if s.bg_next_tile_attrib &&& 0x01 ≠ 0 then 0xFF else 0x00),
    bg_shifter_attrib_hi := (s.bg_shifter_attrib_hi &&& 0xFF00)
      ||| (if s.bg_next_tile_attrib &&& 0x02 ≠ 0 then 0xFF else 0x00) }

/-- PPU.fetch_nametable_byte from src/ppu.rs; the source also prints a
progress line, which has no state effect. -/
def PPU.fetch_nametable_byte (s : PPU) (cart : Cartridge) : PPU :=
  { s with bg_next_tile_id := s.ppu_read (0x2000 ||| (s.vram_addr &&& 0x0FFF)) cart }

/-- PPU.fetch_attribute_table_byte from src/ppu.rs. -/
def PPU.fetch_attribute_table_byte (s : PPU) (cart : Cartridge) : PPU :=
  let a := 0x23C0 ||| (s.vram_addr &&& 0x0C00)
             ||| ((s.vram_addr >>> 4) &&& 0x38) ||| ((s.vram_addr >>> 2) &&& 0x07)
  let attrByte := s.ppu_read a cart
  let v := if s.vram_addr &&& 0x0002 ≠ 0 then attrByte >>> 2 else attrByte
  let v := if s.vram_addr &&& 0x0040 ≠ 0 then v >>> 4 else v
  { s with bg_next_tile_attrib := v &&& 0x03 }

/-- PPU.fetch_low_bg_tile_byte from src/ppu.rs. -/
def PPU.fetch_low_bg_tile_byte (s : PPU) (cart : Cartridge) : PPU :=
  let fine_y := (s.vram_addr >>> 12) &&& 0x07
  let table := if s.ctrl &&& 0x10 ≠ 0 then 0x1000 else 0x0000
  { s with bg_next_tile_lsb := s.ppu_read (table + (s.bg_next_tile_id % 256) * 16 + fine_y) cart }

/-- PPU.fetch_high_bg_tile_byte from src/ppu.rs. -/
def PPU.fetch_high_bg_tile_byte (s : PPU) (cart : Cartridge) : PPU :=
  let fine_y := (s.vram_addr >>> 12) &&& 0x07
  let table := if s.ctrl &&& 0x10 ≠ 0 then 0x1000 else 0x0000
  { s with bg_next_tile_msb :=
      s.ppu_read (table + (s.bg_next_tile_id % 256) * 16 + fine_y + 8) cart }

/-- PPU.increment_scroll_x from src/ppu.rs. -/
def PPU.increment_scroll_x (s : PPU) : PPU :=
  if s.mask &&& 0x18 ≠ 0 then
    if s.vram_addr &&& 0x001F = 31 then
      { s with vram_addr := (s.vram_addr &&& 0xFFE0) ^^^ 0x0400 }
    else
      { s with vram_addr := s.vram_addr + 1 }
  else s

/-- PPU.increment_scroll_y from src/ppu.rs. -/
def PPU.increment_scroll_y (s : PPU) : PPU :=
  if s.mask &&& 0x18 ≠ 0 then
    if s.vram_addr &&& 0x7000 ≠ 0x7000 then
      { s with vram_addr := s.vram_addr + 0x1000 }
    else
      let v := s.vram_addr &&& 0x8FFF
      let y := (v &&& 0x03E0) >>> 5
      if y = 29 then
        { s with vram_addr := ((v ^^^ 0x0800) &&& 0xFC1F) ||| (0 <<< 5) }
      else if y = 31 then
        { s with vram_addr := (v &&& 0xFC1F) ||| (0 <<< 5) }
      else
        { s with vram_addr := (v &&& 0xFC1F) ||| ((y + 1) <<< 5) }
  else s

/-- PPU.transfer_address_x from src/ppu.rs. -/
def PPU.transfer_address_x (s : PPU) : PPU :=
  if s.mask &&& 0x18 ≠ 0 then
    { s with vram_addr := (s.vram_addr &&& 0xFBE0) ||| (s.temp_vram_addr &&& 0x041F) }
  else s

/-- PPU.transfer_address_y from src/ppu.rs. -/
def PPU.transfer_address_y (s : PPU) : PPU :=
  if s.mask &&& 0x18 ≠ 0 then
    { s with vram_addr := (s.vram_addr &&& 0x841F) ||| (s.temp_vram_addr &&& 0x7BE0) }
  else s

/-- The odd first-dot skip at the top of the visible branch of PPU.step
in src/ppu.rs. -/
def PPU.sv_skip (s : PPU) : PPU :=
  if s.scanline = 0 ∧ s.cycle = 0 then { s with cycle := 1 } else s

/-- The eight-dot background fetch cell of PPU.step in src/ppu.rs,
active on dots 2 to 257 and 321 to 337. -/
def PPU.sv_fetch (s : PPU) (cart : Cartridge) : PPU :=
  if (2 ≤ s.cycle ∧ s.cycle < 258) ∨ (321 ≤ s.cycle ∧ s.cycle < 338) then
    let t := s.update_shifters
    match (t.cycle - 1) % 8 with
    | 0 => t.load_background_shifters
    | 1 => t.fetch_nametable_byte cart
    | 3 => t.fetch_attribute_table_byte cart
    | 5 => t.fetch_low_bg_tile_byte cart
    | 7 => (t.fetch_high_bg_tile_byte cart).increment_scroll_x
    | _ => t
  else s

/-- The dot 256 fine-Y increment of PPU.step in src/ppu.rs. -/
def PPU.sv_dot256 (s : PPU) : PPU :=
  if s.cycle = 256 then s.increment_scroll_y else s

/-- The dot 257 horizontal transfer of PPU.step in src/ppu.rs. -/
def PPU.sv_dot257 (s : PPU) : PPU :=
  if s.cycle = 257 then s.transfer_address_x else s

/-- The pre-render vertical transfer on dots 280 to 304 of PPU.step in
src/ppu.rs. -/
def PPU.sv_prerender (s : PPU) : PPU :=
  if s.scanline = -1 ∧ 280 ≤ s.cycle ∧ s.cycle < 305 then s.transfer_address_y else s

/-- The pixel output on dots 1 to 256 of visible scanlines in PPU.step
in src/ppu.rs. -/
def PPU.sv_render (s : PPU) : PPU :=
  if 0 ≤ s.scanline ∧ 1 ≤ s.cycle ∧ s.cycle ≤ 256 then s.render_pixel else s

/-- The visible and pre-render scanline work of PPU.step in src/ppu.rs,
assembled from its stages in source order. -/
def PPU.step_visible (s : PPU) (cart : Cartridge) : PPU :=
  (((((s.sv_skip).sv_fetch cart).sv_dot256).sv_dot257).sv_prerender).sv_render

/-- The VBlank entry of PPU.step in src/ppu.rs: at scanline 241 dot 1
set STATUS bit 7 and nmi_occurred, and report NMI when CTRL bit 7 is
set. -/
def PPU.step_vblank (s : PPU) : PPU × Bool :=
  if s.scanline = 241 ∧ s.cycle = 1 then
    ({ s with status := s.status ||| 0x80, nmi_occurred := true }, s.ctrl &&& 0x80 ≠ 0)
  else (s, false)

/-- The dot and scanline advance at the end of PPU.step in src/ppu.rs:
increment the dot, wrap the scanline, and at the end of the frame clear
STATUS bit 7 and nmi_occurred and latch frame_complete. -/
def PPU.step_advance (s : PPU) : PPU :=
  let s := { s with cycle := (s.cycle + 1) % 65536 }
  if 341 ≤ s.cycle then
    let s := { s with cycle := 0, scanline := s.scanline + 1 }
    if 261 ≤ s.scanline then
      { s with scanline := -1, frame_complete := true,
               status := s.status &&& 0x7F, nmi_occurred := false }
    else s
  else s

/-- PPU.step from src/ppu.rs, assembled from its three phases in source
order; the returned Bool is the NMI signal the caller receives. -/
def PPU.step (s : PPU) (cart : Cartridge) : PPU × Bool :=
  let s := if -1 ≤ s.scanline ∧ s.scanline < 240 then s.step_visible cart else s
  let (s, nmi) := s.step_vblank
  (s.step_advance, nmi)

/-- PPU.reset from src/ppu.rs, including the palette preset the source
installs. -/
def PPU.reset (s : PPU) : PPU :=
  let s :=
    { s with fine_x_scroll := 0, temp_vram_addr := 0x2000, vram_addr := 0x2000,
             write_toggle := false, data := 0, scanline := 261, cycle := 0,
             frame_complete := false, status := 0x80, ctrl := 0, mask := 0,
             nmi_occurred := false, nmi_output := false,
             bg_shifter_pattern_lo := 0, bg_shifter_pattern_hi := 0,
             bg_shifter_attrib_lo := 0, bg_shifter_attrib_hi := 0 }
  { s with palette_ram := fun j =>
      if j = 0 then 0x0F else if j = 1 then 0x30 else if j = 2 then 0x16
      else if j = 3 then 0x27 else if j = 17 then 0x30 else if j = 18 then 0x27
      else if j = 19 then 0x16 else s.palette_ram j }

/-- PPU.frame_ready from src/ppu.rs. -/
def PPU.frame_ready (s : PPU) : Bool := s.frame_complete

/-- PPU.frame_done from src/ppu.rs. -/
def PPU.frame_done (s : PPU) : PPU := { s with frame_complete := false }

/-- CPU register state, from src/cpu.rs. -/
structure CPU where
  a : Nat
  x : Nat
  y : Nat
  pc : Nat
  sp : Nat
  status : Nat
  cycles : Nat
deriving DecidableEq

/-- CPU.new from src/cpu.rs: interrupt-disable and unused flags set. -/
def CPU.new : CPU :=
  { a := 0, x := 0, y := 0, pc := 0, sp := 0xFD, status := 0x24, cycles := 0 }

/-- CPU.get_flag from src/cpu.rs. -/
def CPU.get_flag (c : CPU) (flag : Nat) : Bool := c.status &&& flag ≠ 0

/-- CPU.immediate from src/cpu.rs: read the operand byte at PC and
advance PC. Memory is a pure byte-read function here, which is all the
branch path needs. -/
def CPU.immediate (c : CPU) (mem : Nat → Nat) : Nat × CPU :=
  (mem c.pc % 256, { c with pc := (c.pc + 1) % 65536 })

/-- CPU.branch from src/cpu.rs: consume the signed 8-bit offset, and
when the condition holds add it to PC with 16-bit wrap, charging 4
cycles when the page of the new PC differs from the page of the PC
after the operand and 3 otherwise; an untaken branch costs 2. -/
def CPU.branch (c : CPU) (condition : Bool) (mem : Nat → Nat) : CPU × Nat :=
  let (offset, c) := c.immediate mem
  if condition then
    let old_pc := c.pc
    let off16 := if offset < 128 then offset else offset + 65280
    let c := { c with pc := (c.pc + off16) % 65536 }
    if old_pc &&& 0xFF00 ≠ c.pc &&& 0xFF00 then (c, 4) else (c, 3)
  else (c, 2)

/-- The dispatch arms of CPU.execute_instruction in src/cpu.rs that the
claims exercise: the eight conditional branches and the default arm,
which treats an unknown opcode as a 2-cycle no-operation. The remaining
documented-opcode arms of the source are not needed by any claim and are
omitted; theorems instantiate this function only at branch opcodes and
at opcodes the source leaves to the default arm. -/
def CPU.execute_instruction (c : CPU) (opcode : Nat) (mem : Nat → Nat) : CPU × Nat :=
  if opcode = 0xD0 then c.branch (!(c.get_flag 0x02)) mem
  else if opcode = 0xF0 then c.branch (c.get_flag 0x02) mem
  else if opcode = 0x10 then c.branch (!(c.get_flag 0x80)) mem
  else if opcode = 0x30 then c.branch (c.get_flag 0x80) mem
  else if opcode = 0x90 then c.branch (!(c.get_flag 0x01)) mem
  else if opcode = 0xB0 then c.branch (c.get_flag 0x01) mem
  else if opcode = 0x50 then c.branch (!(c.get_flag 0x40)) mem
  else if opcode = 0x70 then c.branch (c.get_flag 0x40) mem
  else if opcode = 0xEA then (c, 2)
  else (c, 2)

/-- CPU.step from src/cpu.rs: fetch the opcode at PC, advance PC,
execute, and accumulate the cycle cost, which is also returned. -/
def CPU.step (c : CPU) (mem : Nat → Nat) : CPU × Nat :=
  let opcode := mem c.pc % 256
  let c := { c with pc := (c.pc + 1) % 65536 }
  let (c, cycles) := c.execute_instruction opcode mem
  ({ c with cycles := c.cycles + cycles }, cycles)

/-- Bus state, from src/bus.rs. -/
structure Bus where
  cpu : CPU
  ppu : PPU
  cartridge : Option Cartridge
  ram : Nat → Nat
  controller1 : Nat
  controller2 : Nat
  controller1_shift : Nat
  controller2_shift : Nat

/-- Bus.new from src/bus.rs. -/
def Bus.new : Bus :=
  { cpu := CPU.new, ppu := PPU.new, cartridge := none, ram := fun _ => 0,
    controller1 := 0, controller2 := 0, controller1_shift := 0, controller2_shift := 0 }

/-- Bus.read from src/bus.rs: RAM mirror, PPU registers, the two
controller shift registers read least significant bit first, open-bus
zeros, and the cartridge arm. The source computes the cartridge offset
as addr minus 0x8000 on u16, which wraps for addresses below 0x8000 in
release builds (and panics in debug builds); the model uses the release
wrap. A panic inside Cartridge.read_prg surfaces as none. -/
def Bus.read (b : Bus) (addr : Nat) : Option (Nat × Bus) :=
  if addr ≤ 0x1FFF then
    some (b.ram (addr % 2048) % 256, b)
  else if addr ≤ 0x3FFF then
    let (d, p) := b.ppu.cpu_read (0x2000 + addr % 8)
    some (d, { b with ppu := p })
  else if addr = 0x4016 then
    some (b.controller1_shift &&& 1, { b with controller1_shift := b.controller1_shift >>> 1 })
  else if addr = 0x4017 then
    some (b.controller2_shift &&& 1, { b with controller2_shift := b.controller2_shift >>> 1 })
  else if addr ≤ 0x4017 then
    some (0, b)
  else if addr ≤ 0x401F then
    some (0, b)
  else
    match b.cartridge with
    | some cart => (cart.read_prg ((addr + 0x8000) % 65536)).map fun v => (v % 256, b)
    | none => some (0, b)

/-- Bus.write from src/bus.rs. The 0x4014 arm is the OAM DMA: it copies
256 bytes read through the bus from page times 256 into OAM indices 0 to
255, with no cycle accounting; 0x4016 with bit 0 set reloads both
controller shift registers. -/
def Bus.write (b : Bus) (addr : Nat) (data : Nat) : Option Bus :=
  if addr ≤ 0x1FFF then
    some { b with ram := fun j => if j = addr % 2048 then data else b.ram j }
  else if addr ≤ 0x3FFF then
    some { b with ppu := b.ppu.cpu_write (0x2000 + addr % 8) data }
  else if addr = 0x4014 then
    let page := (data % 256) <<< 8
    (List.range 256).foldlM
      (fun acc i =>
        (acc.read (page + i)).map fun di =>
          { di.2 with ppu := { di.2.ppu with
              oam := fun j => if j = i then di.1 else di.2.ppu.oam j } })
      b
  else if addr = 0x4016 then
    if data &&& 1 ≠ 0 then
      some { b with controller1_shift := b.controller1, controller2_shift := b.controller2 }
    else some b
  else if addr ≤ 0x4017 then
    some b
  else if addr ≤ 0x401F then
    some b
  else
    some b

/-- Bus.set_controller_state from src/bus.rs. -/
def Bus.set_controller_state (b : Bus) (controller buttons : Nat) : Bus :=
  if controller = 1 then { b with controller1 := buttons }
  else if controller = 2 then { b with controller2 := buttons }
  else b

/-- The CPU register struct private to src/nes.rs and src/nes_new.rs,
named CPU there; renamed here to avoid the clash with the src/cpu.rs
struct. Its status register is the field p. -/
structure NesCpu where
  a : Nat
  x : Nat
  y : Nat
  pc : Nat
  sp : Nat
  p : Nat
  cycles : Nat
deriving DecidableEq

/-- CPU.new from src/nes.rs. -/
def NesCpu.new : NesCpu :=
  { a := 0, x := 0, y := 0, pc := 0, sp := 0xFD, p := 0x24, cycles := 0 }

/-- Console state, from src/nes.rs. The debug-only instruction and
frame counters do not affect the semantics the claims concern and are
omitted. -/
structure NES where
  cpu : NesCpu
  ppu : PPU
  ram : Nat → Nat
  frame_complete : Bool
  cartridge : Option Cartridge
  controller1 : Nat
  controller1_shift : Nat
  controller_strobe : Bool
  cycles : Nat

/-- NES.cpu_read from src/nes.rs: RAM mirror, PPU registers, controller
1 read most significant bit first, and PRG reads for 0x8000 and up. A
panic inside Cartridge.read_prg surfaces as none. -/
def NES.cpu_read (s : NES) (addr : Nat) : Option (Nat × NES) :=
  if addr ≤ 0x1FFF then
    some (s.ram (addr &&& 0x07FF) % 256, s)
  else if addr ≤ 0x3FFF then
    let (d, p) := s.ppu.cpu_read (0x2000 + (addr &&& 0x0007))
    some (d, { s with ppu := p })
  else if addr = 0x4016 then
    let bit := s.controller1_shift &&& 0x80
    some ((if bit ≠ 0 then 1 else 0),
          { s with controller1_shift := (s.controller1_shift <<< 1) % 256 })
  else if addr = 0x4017 then
    some (0, s)
  else if 0x8000 ≤ addr then
    match s.cartridge with
    | some cart => (cart.read_prg ((addr + 0x8000) % 65536)).map fun v => (v % 256, s)
    | none => some (0, s)
  else
    some (0, s)

/-- NES.cpu_write from src/nes.rs: RAM mirror, PPU registers, and the
controller strobe latch that reloads the shift register while high. -/
def NES.cpu_write (s : NES) (addr data : Nat) : NES :=
  if addr ≤ 0x1FFF then
    { s with ram := fun j => if j = (addr &&& 0x07FF) then data else s.ram j }
  else if addr ≤ 0x3FFF then
    { s with ppu := s.ppu.cpu_write (0x2000 + (addr &&& 0x0007)) data }
  else if addr = 0x4016 then
    let strobe := data &&& 1 ≠ 0
    if strobe then
      { s with controller_strobe := strobe, controller1_shift := s.controller1 }
    else
      { s with controller_strobe := strobe }
  else
    s

/-- NES.nmi from src/nes.rs: push PC high, PC low and the raw status
byte, then load PC from the PRG bytes at offsets 0x7FFA and 0x7FFB when
a cartridge is present. A panic inside Cartridge.read_prg surfaces as
none. -/
def NES.nmi (s : NES) : Option NES :=
  let s := s.cpu_write (0x0100 + s.cpu.sp) ((s.cpu.pc >>> 8) &&& 0xFF)
  let s := { s with cpu := { s.cpu with sp := (s.cpu.sp + 255) % 256 } }
  let s := s.cpu_write (0x0100 + s.cpu.sp) (s.cpu.pc &&& 0xFF)
  let s := { s with cpu := { s.cpu with sp := (s.cpu.sp + 255) % 256 } }
  let s := s.cpu_write (0x0100 + s.cpu.sp) s.cpu.p
  let s := { s with cpu := { s.cpu with sp := (s.cpu.sp + 255) % 256 } }
  match s.cartridge with
  | some cart => do
      let lo ← cart.read_prg 0x7FFA
      let hi ← cart.read_prg 0x7FFB
      some { s with cpu := { s.cpu with pc := ((hi % 256) <<< 8) ||| (lo % 256) } }
  | none => some s

/-- The NMI injection test inside NES.run_frame in src/nes.rs: after
each PPU dot, when the PPU reported NMI and bit 2 of the status register
P, the interrupt-disable flag, is clear, run the NMI sequence; when bit
2 is set, the NMI is skipped. -/
def NES.handle_nmi_signal (s : NES) (nmi : Bool) : Option NES :=
  if nmi ∧ s.cpu.p &&& 0x04 = 0 then s.nmi else some s

/-- NES.set_controller_state from src/nes.rs. -/
def NES.set_controller_state (s : NES) (buttons : Nat) : NES :=
  let s := { s with controller1 := buttons }
  if s.controller_strobe then { s with controller1_shift := s.controller1 } else s

/-- Console state, from src/nes_new.rs; structurally the same fields as
the src/nes.rs console. -/
structure NESNew where
  cpu : NesCpu
  ppu : PPU
  ram : Nat → Nat
  frame_complete : Bool
  cartridge : Option Cartridge
  controller1 : Nat
  controller1_shift : Nat
  controller_strobe : Bool
  cycles : Nat

/-- NES.cpu_read from src/nes_new.rs, textually the same decode as the
src/nes.rs one. -/
def NESNew.cpu_read (s : NESNew) (addr : Nat) : Option (Nat × NESNew) :=
  if addr ≤ 0x1FFF then
    some (s.ram (addr &&& 0x07FF) % 256, s)
  else if addr ≤ 0x3FFF then
    let (d, p) := s.ppu.cpu_read (0x2000 + (addr &&& 0x0007))
    some (d, { s with ppu := p })
  else if addr = 0x4016 then
    let bit := s.controller1_shift &&& 0x80
    some ((if bit ≠ 0 then 1 else 0),
          { s with controller1_shift := (s.controller1_shift <<< 1) % 256 })
  else if addr = 0x4017 then
    some (0, s)
  else if 0x8000 ≤ addr then
    match s.cartridge with
    | some cart => (cart.read_prg ((addr + 0x8000) % 65536)).map fun v => (v % 256, s)
    | none => some (0, s)
  else
    some (0, s)

/-- NES.cpu_write from src/nes_new.rs. -/
def NESNew.cpu_write (s : NESNew) (addr data : Nat) : NESNew :=
  if addr ≤ 0x1FFF then
    { s with ram := fun j => if j = (addr &&& 0x07FF) then data else s.ram j }
  else if addr ≤ 0x3FFF then
    { s with ppu := s.ppu.cpu_write (0x2000 + (addr &&& 0x0007)) data }
  else if addr = 0x4016 then
    let strobe := data &&& 1 ≠ 0
    if strobe then
      { s with controller_strobe := strobe, controller1_shift := s.controller1 }
    else
      { s with controller_strobe := strobe }
  else
    s

/-- The flag helper set_zero_negative shared by src/nes.rs and
src/nes_new.rs. -/
def NESNew.set_zero_negative (s : NESNew) (value : Nat) : NESNew :=
  let p := if value % 256 = 0 then s.cpu.p ||| 0x02 else s.cpu.p &&& 0xFD
  let p := if value &&& 0x80 ≠ 0 then p ||| 0x80 else p &&& 0x7F
  { s with cpu := { s.cpu with p := p } }

/-- NES.cpu_step from src/nes_new.rs, with its complete opcode table:
NOP, JMP absolute, LDA immediate, STA absolute, SEI, CLI, CLD, and the
default arm, which advances PC by one more byte beyond the opcode fetch.
Each step also adds one to the cycle counter. -/
def NESNew.cpu_step (s : NESNew) : Option NESNew :=
  if s.cartridge.isSome then do
    let (opcode, s) ← s.cpu_read s.cpu.pc
    let s := { s with cpu := { s.cpu with pc := (s.cpu.pc + 1) % 65536 } }
    let s ←
      if opcode = 0xEA then
        some s
      else if opcode = 0x4C then do
        let (lo, s) ← s.cpu_read s.cpu.pc
        let (hi, s) ← s.cpu_read ((s.cpu.pc + 1) % 65536)
        some { s with cpu := { s.cpu with pc := (hi <<< 8) ||| lo } }
      else if opcode = 0xA9 then do
        let (v, s) ← s.cpu_read s.cpu.pc
        let s := { s with cpu := { s.cpu with a := v, pc := (s.cpu.pc + 1) % 65536 } }
        some (s.set_zero_negative s.cpu.a)
      else if opcode = 0x8D then do
        let (lo, s) ← s.cpu_read s.cpu.pc
        let (hi, s) ← s.cpu_read ((s.cpu.pc + 1) % 65536)
        let s := s.cpu_write ((hi <<< 8) ||| lo) s.cpu.a
        some { s with cpu := { s.cpu with pc := (s.cpu.pc + 2) % 65536 } }
      else if opcode = 0x78 then
        some { s with cpu := { s.cpu with p := s.cpu.p ||| 0x04 } }
      else if opcode = 0x58 then
        some { s with cpu := { s.cpu with p := s.cpu.p &&& 0xFB } }
      else if opcode = 0xD8 then
        some { s with cpu := { s.cpu with p := s.cpu.p &&& 0xF7 } }
      else
        some { s with cpu := { s.cpu with pc := (s.cpu.pc + 1) % 65536 } }
    some { s with cpu := { s.cpu with cycles := s.cpu.cycles + 1 } }
  else some s

section StatusPreservation

variable (s : PPU) (cart : Cartridge)

@[simp] lemma update_shifters_status : (s.update_shifters).status = s.status := by
  unfold PPU.update_shifters; split <;> rfl

@[simp] lemma update_shifters_scanline : (s.update_shifters).scanline = s.scanline := by
  unfold PPU.update_shifters; split <;> rfl

@[simp] lemma update_shifters_cycle : (s.update_shifters).cycle = s.cycle := by
  unfold PPU.update_shifters; split <;> rfl

@[simp] lemma load_background_shifters_status :
    (s.load_background_shifters).status = s.status := rfl

@[simp] lemma load_background_shifters_scanline :
    (s.load_background_shifters).scanline = s.scanline := rfl

@[simp] lemma load_background_shifters_cycle :
    (s.load_background_shifters).cycle = s.cycle := rfl

@[simp] lemma fetch_nametable_byte_status :
    (s.fetch_nametable_byte cart).status = s.status := rfl

@[simp] lemma fetch_nametable_byte_scanline :
    (s.fetch_nametable_byte cart).scanline = s.scanline := rfl

@[simp] lemma fetch_nametable_byte_cycle :
    (s.fetch_nametable_byte cart).cycle = s.cycle := rfl

@[simp] lemma fetch_attribute_table_byte_status :
    (s.fetch_attribute_table_byte cart).status = s.status := rfl

@[simp] lemma fetch_attribute_table_byte_scanline :
    (s.fetch_attribute_table_byte cart).scanline = s.scanline := rfl

@[simp] lemma fetch_attribute_table_byte_cycle :
    (s.fetch_attribute_table_byte cart).cycle = s.cycle := rfl

@[simp] lemma fetch_low_bg_tile_byte_status :
    (s.fetch_low_bg_tile_byte cart).status = s.status := rfl

@[simp] lemma fetch_low_bg_tile_byte_scanline :
    (s.fetch_low_bg_tile_byte cart).scanline = s.scanline := rfl

@[simp] lemma fetch_low_bg_tile_byte_cycle :
    (s.fetch_low_bg_tile_byte cart).cycle = s.cycle := rfl

@[simp] lemma fetch_high_bg_tile_byte_status :
    (s.fetch_high_bg_tile_byte cart).status = s.status := rfl

@[simp] lemma fetch_high_bg_tile_byte_scanline :
    (s.fetch_high_bg_tile_byte cart).scanline = s.scanline := rfl

@[simp] lemma fetch_high_bg_tile_byte_cycle :
    (s.fetch_high_bg_tile_byte cart).cycle = s.cycle := rfl

@[simp] lemma increment_scroll_x_status : (s.increment_scroll_x).status = s.status := by
  unfold PPU.increment_scroll_x
  repeat' split
  all_goals rfl

@[simp] lemma increment_scroll_x_scanline :
    (s.increment_scroll_x).scanline = s.scanline := by
  unfold PPU.increment_scroll_x
  repeat' split
  all_goals rfl

@[simp] lemma increment_scroll_x_cycle : (s.increment_scroll_x).cycle = s.cycle := by
  unfold PPU.increment_scroll_x
  repeat' split
  all_goals rfl

@[simp] lemma increment_scroll_y_status : (s.increment_scroll_y).status = s.status := by
  unfold PPU.increment_scroll_y
  dsimp only
  repeat' split
  all_goals rfl

@[simp] lemma increment_scroll_y_scanline :
    (s.increment_scroll_y).scanline = s.scanline := by
  unfold PPU.increment_scroll_y
  dsimp only
  repeat' split
  all_goals rfl

@[simp] lemma increment_scroll_y_cycle : (s.increment_scroll_y).cycle = s.cycle := by
  unfold PPU.increment_scroll_y
  dsimp only
  repeat' split
  all_goals rfl

@[simp] lemma transfer_address_x_status : (s.transfer_address_x).status = s.status := by
  unfold PPU.transfer_address_x; split <;> rfl

@[simp] lemma transfer_address_x_scanline :
    (s.transfer_address_x).scanline = s.scanline := by
  unfold PPU.transfer_address_x; split <;> rfl

@[simp] lemma transfer_address_x_cycle : (s.transfer_address_x).cycle = s.cycle := by
  unfold PPU.transfer_address_x; split <;> rfl

@[simp] lemma transfer_address_y_status : (s.transfer_address_y).status = s.status := by
  unfold PPU.transfer_address_y; split <;> rfl

@[simp] lemma transfer_address_y_scanline :
    (s.transfer_address_y).scanline = s.scanline := by
  unfold PPU.transfer_address_y; split <;> rfl

@[simp] lemma transfer_address_y_cycle : (s.transfer_address_y).cycle = s.cycle := by
  unfold PPU.transfer_address_y; split <;> rfl

@[simp] lemma render_pixel_status : (s.render_pixel).status = s.status := by
  unfold PPU.render_pixel
  dsimp only
  repeat' split
  all_goals rfl

@[simp] lemma render_pixel_scanline : (s.render_pixel).scanline = s.scanline := by
  unfold PPU.render_pixel
  dsimp only
  repeat' split
  all_goals rfl

@[simp] lemma render_pixel_cycle : (s.render_pixel).cycle = s.cycle := by
  unfold PPU.render_pixel
  dsimp only
  repeat' split
  all_goals rfl

@[simp] lemma sv_fetch_status : (s.sv_fetch cart).status = s.status := by
  unfold PPU.sv_fetch
  dsimp only
  repeat' split
  all_goals simp

@[simp] lemma sv_fetch_scanline : (s.sv_fetch cart).scanline = s.scanline := by
  unfold PPU.sv_fetch
  dsimp only
  repeat' split
  all_goals simp

@[simp] lemma sv_fetch_cycle : (s.sv_fetch cart).cycle = s.cycle := by
  unfold PPU.sv_fetch
  dsimp only
  repeat' split
  all_goals simp

@[simp] lemma sv_dot256_status : (s.sv_dot256).status = s.status := by
  unfold PPU.sv_dot256; split <;> simp

@[simp] lemma sv_dot256_scanline : (s.sv_dot256).scanline = s.scanline := by
  unfold PPU.sv_dot256; split <;> simp

@[simp] lemma sv_dot256_cycle : (s.sv_dot256).cycle = s.cycle := by
  unfold PPU.sv_dot256; split <;> simp

@[simp] lemma sv_dot257_status : (s.sv_dot257).status = s.status := by
  unfold PPU.sv_dot257; split <;> simp

@[simp] lemma sv_dot257_scanline : (s.sv_dot257).scanline = s.scanline := by
  unfold PPU.sv_dot257; split <;> simp

@[simp] lemma sv_dot257_cycle : (s.sv_dot257).cycle = s.cycle := by
  unfold PPU.sv_dot257; split <;> simp

@[simp] lemma sv_prerender_status : (s.sv_prerender).status = s.status := by
  unfold PPU.sv_prerender; split <;> simp

@[simp] lemma sv_prerender_scanline : (s.sv_prerender).scanline = s.scanline := by
  unfold PPU.sv_prerender; split <;> simp

@[simp] lemma sv_prerender_cycle : (s.sv_prerender).cycle = s.cycle := by
  unfold PPU.sv_prerender; split <;> simp

@[simp] lemma sv_render_status : (s.sv_render).status = s.status := by
  unfold PPU.sv_render; split <;> simp

@[simp] lemma sv_render_scanline : (s.sv_render).scanline = s.scanline := by
  unfold PPU.sv_render; split <;> simp

@[simp] lemma sv_render_cycle : (s.sv_render).cycle = s.cycle := by
  unfold PPU.sv_render; split <;> simp

@[simp] lemma sv_skip_status : (s.sv_skip).status = s.status := by
  unfold PPU.sv_skip; split <;> rfl

@[simp] lemma sv_skip_scanline : (s.sv_skip).scanline = s.scanline := by
  unfold PPU.sv_skip; split <;> rfl

lemma sv_skip_cycle :
    (s.sv_skip).cycle = if s.scanline = 0 ∧ s.cycle = 0 then 1 else s.cycle := by
  unfold PPU.sv_skip; split <;> simp_all

lemma step_visible_status : (s.step_visible cart).status = s.status := by
  unfold PPU.step_visible; simp

lemma step_visible_scanline : (s.step_visible cart).scanline = s.scanline := by
  unfold PPU.step_visible; simp

lemma step_visible_cycle :
    (s.step_visible cart).cycle = if s.scanline = 0 ∧ s.cycle = 0 then 1 else s.cycle := by
  unfold PPU.step_visible; simp [sv_skip_cycle]

end StatusPreservation

section Fixtures

/-- A PPU state sitting at scanline 241 dot 1 with CTRL bit 7 set: the
position where the source raises NMI. -/
def ppu241 : PPU := { PPU.new with scanline := 241, cycle := 1, ctrl := 0x80 }

/-- A console in its reset state: P is 0x24, so the interrupt-disable
flag (bit 2) is set. -/
def nes_base : NES :=
  { cpu := NesCpu.new, ppu := PPU.new, ram := fun _ => 0, frame_complete := false,
    cartridge := none, controller1 := 0, controller1_shift := 0,
    controller_strobe := false, cycles := 0 }

/-- A two-byte PRG image whose wrap-around indexing yields 0x23 at even
and 0x81 at odd offsets, so the NMI vector reads as 0x8123. -/
def cart_vec : Cartridge :=
  { prg_rom := [0x23, 0x81], chr_rom := [], mapper := 0, mirroring := Mirroring.horizontal }

/-- A console whose interrupt-disable flag is clear and whose cartridge
supplies the NMI vector 0x8123. -/
def nes_clear_i : NES :=
  { nes_base with cpu := { NesCpu.new with p := 0x20 }, cartridge := some cart_vec }

/-- A console with only the A button held, using the external-interface
mask where A is bit 0. -/
def nes_pad : NES := { nes_base with controller1 := 0x01 }

/-- A bus with only the A button held on controller 1, same mask. -/
def bus_pad : Bus := { Bus.new with controller1 := 0x01 }

/-- A bus prepared for OAM DMA: OAMADDR is 5 and CPU address 0x0200
holds 0xAB. -/
def bus_dma : Bus :=
  { Bus.new with ram := fun a => if a = 0x0200 then 0xAB else 0,
                 ppu := { PPU.new with oam_addr := 5 } }

/-- Memory holding the single unknown opcode 0xFF at address 0. -/
def mem_ff : Nat → Nat := fun a => if a = 0 then 0xFF else 0

/-- A nes_new console about to execute the unknown opcode 0xFF from
RAM address 0. -/
def nn_ff : NESNew :=
  { cpu := NesCpu.new, ppu := PPU.new, ram := mem_ff, frame_complete := false,
    cartridge := some Cartridge.dummy, controller1 := 0, controller1_shift := 0,
    controller_strobe := false, cycles := 0 }

/-- A PPU at the pre-render scanline dot 1 with STATUS bits 7, 6 and 5
all set. -/
def ppu_pre1 : PPU := { PPU.new with scanline := -1, cycle := 1, status := 0xE0 }

/-- A CPU about to execute BNE with offset 0x7F from address 0x80FE,
with the zero flag clear so the branch is taken. -/
def cpu_bne : CPU := { CPU.new with pc := 0x80FE }

/-- Memory holding the BNE opcode at 0x80FE and the offset 0x7F at
0x80FF. -/
def mem_bne : Nat → Nat :=
  fun a => if a = 0x80FE then 0xD0 else if a = 0x80FF then 0x7F else 0

/-- An iNES image whose header declares zero PRG units and zero CHR
units; Cartridge.new accepts it and produces an empty PRG bank. -/
def rom_noprg : List Nat :=
  [0x4E, 0x45, 0x53, 0x1A, 0, 0, 0, 0, 0, 0, 0, 0, 0, 0, 0, 0]

/-- The cartridge value Cartridge.new produces from rom_noprg. -/
def cart_noprg : Cartridge :=
  { prg_rom := [], chr_rom := List.replicate 8192 0, mapper := 0,
    mirroring := Mirroring.horizontal }

/-- A bus loaded with the empty-PRG cartridge. -/
def bus_noprg : Bus := { Bus.new with cartridge := some cart_noprg }

/-- A 32 KiB PRG cartridge, the plain NROM-256 shape. -/
def cart_32k : Cartridge :=
  { prg_rom := List.replicate 32768 0, chr_rom := [], mapper := 0,
    mirroring := Mirroring.horizontal }

/-- A bus loaded with the 32 KiB PRG cartridge. -/
def bus_32k : Bus := { Bus.new with cartridge := some cart_32k }

end Fixtures

/-- C1: the PPU does raise NMI at scanline 241 dot 1 with CTRL bit 7
set, but the console in src/nes.rs gates the NMI injection on the CPU
interrupt-disable flag: with P = 0x24 (bit 2 set, the reset value) the
NMI sequence is skipped and the console state is returned unchanged,
while with bit 2 clear the sequence runs and loads PC from the vector.
The claim, and the spec, require the sequence to run regardless of bit
2: NMIs are non-maskable. -/
theorem c1_nmi_gated_by_interrupt_flag :
    (PPU.step ppu241 Cartridge.dummy).2 = true
    ∧ nes_base.cpu.p &&& 0x04 ≠ 0
    ∧ NES.handle_nmi_signal nes_base true = some nes_base
    ∧ (NES.handle_nmi_signal nes_clear_i true).map (fun n => n.cpu.pc) = some 0x8123 := by
  refine ⟨by decide, by decide, rfl, rfl⟩

/-- C2: the pixel output routine in src/ppu.rs never modifies STATUS at
all, for every PPU state: in particular it never sets the sprite-0-hit
bit 6, contrary to the claim and the spec, which require bit 6 to be set
when the chosen sprite-0 pixel overlaps a non-zero background pixel with
rendering enabled and x not 255. -/
theorem c2_render_pixel_never_sets_sprite0_hit (s : PPU) :
    (s.render_pixel).status = s.status :=
  render_pixel_status s

/-- C3: the controller protocol diverges from the claim in both bus
revisions. In src/nes.rs the shift register is read most significant
bit first, so with the claimed mask (A = 0x01) and the strobe just
written high, the first read of 0x4016 returns 0 even though A is held;
the claim requires 1. In src/bus.rs the register is read least
significant bit first, but while the strobe is 1 reads keep shifting:
with only A held, the first read returns 1 and the second returns 0,
where the claim requires every read made while strobe is 1 to return
the A state 1. -/
theorem c3_controller_shift_divergence :
    ((nes_pad.cpu_write 0x4016 1).cpu_read 0x4016).map Prod.fst = some 0
    ∧ (do
        let b1 ← Bus.write bus_pad 0x4016 1
        let r1 ← Bus.read b1 0x4016
        let r2 ← Bus.read r1.2 0x4016
        pure (r1.1, r2.1)) = some (1, 0) := by
  refine ⟨rfl, rfl⟩

/-- C8: an unknown opcode behaves as the claim says in src/cpu.rs (PC
advances by exactly 1, cost 2 cycles), but the consoles in src/nes.rs
and src/nes_new.rs add a second PC increment in their default arm and
count a single cycle: executing 0xFF from address 0 leaves PC at 2, not
1. -/
theorem c8_unknown_opcode_divergence :
    (CPU.step CPU.new mem_ff).1.pc = 1
    ∧ (CPU.step CPU.new mem_ff).2 = 2
    ∧ (NESNew.cpu_step nn_ff).map (fun n => (n.cpu.pc, n.cpu.cycles)) = some (2, 1) := by
  refine ⟨by decide, by decide, rfl⟩

/-- C6 counterexample: at scanline -1 dot 1 with STATUS bits 7, 6 and 5
all set, one PPU step leaves STATUS exactly as it was: the source does
not clear any STATUS bit at the pre-render dot 1, contradicting the
claim. -/
theorem c6_vblank_clear_counterexample :
    ppu_pre1.scanline = -1 ∧ ppu_pre1.cycle = 1 ∧ ppu_pre1.status = 0xE0
    ∧ (PPU.step ppu_pre1 Cartridge.dummy).1.status = 0xE0 := by
  refine ⟨rfl, rfl, rfl, by decide⟩

/-- C7 counterexample: a taken BNE with offset 0x7F at PC 0x80FE costs
3 cycles in src/cpu.rs, not the 4 the claim states: the page-cross test
compares the post-operand PC 0x8100 with the target 0x817F, which lie on
the same page. -/
theorem c7_branch_cycle_counterexample :
    cpu_bne.pc = 0x80FE ∧ mem_bne 0x80FE = 0xD0 ∧ mem_bne 0x80FF = 0x7F
    ∧ cpu_bne.status &&& 0x02 = 0
    ∧ (CPU.step cpu_bne mem_bne).2 = 3 := by
  refine ⟨rfl, rfl, rfl, by decide, by decide⟩

set_option maxRecDepth 16384 in
/-- C4: the OAM DMA in src/bus.rs copies the 256 bytes of the page into
OAM indices 0 to 255, ignoring OAMADDR, and performs no cycle
accounting. With OAMADDR 5 and 0xAB at CPU address 0x0200, writing 0x02
to 0x4014 deposits 0xAB at OAM index 0 rather than at index 5, leaves
OAMADDR at 5, and leaves the CPU cycle counter untouched, where the
claim requires the transfer to start at OAMADDR and the CPU to stall for
513 or 514 cycles. -/
theorem c4_oam_dma_ignores_oamaddr_and_stall :
    bus_dma.ppu.oam_addr = 5
    ∧ (Bus.write bus_dma 0x4014 0x02).map
        (fun b => (b.ppu.oam 0, b.ppu.oam 5, b.ppu.oam_addr, b.cpu.cycles))
      = some (0xAB, 0, 5, 0) := by
  refine ⟨rfl, rfl⟩

/-- On the 32 KiB cartridge, read_prg indexes the bank directly, so any
offset at or beyond 32768 is out of bounds. -/
lemma read_prg_32k_out (a : Nat) (h : 32768 ≤ a) : cart_32k.read_prg a = none := by
  rw [Cartridge.read_prg, show cart_32k.prg_rom = List.replicate 32768 0 from rfl,
      List.length_replicate, if_neg (by norm_num), if_pos rfl]
  exact List.get?_eq_none.mpr (le_trans (le_of_eq (List.length_replicate 32768 0)) h)

set_option maxRecDepth 16384 in
/-- C10: Bus.read is not total. Cartridge.new accepts an image whose
header declares zero PRG units, producing an empty PRG bank; Bus.read
at 0x8000 then evaluates an index modulo the zero PRG length, which
panics (modelled as none). Moreover for the plain 32 KiB NROM cartridge,
a read in 0x4020 to 0x7FFF wraps the u16 subtraction addr minus 0x8000
(release builds; debug builds already panic on the subtraction) and then
indexes the 32 KiB bank directly at an offset of 0xC020 or more, out of
bounds, which also panics. -/
theorem c10_bus_read_panics :
    Cartridge.parse rom_noprg = some cart_noprg
    ∧ Bus.read bus_noprg 0x8000 = none
    ∧ Bus.read bus_32k 0x4020 = none := by
  refine ⟨rfl, rfl, ?_⟩
  rw [Bus.read]
  rw [if_neg (by norm_num), if_neg (by norm_num), if_neg (by norm_num),
      if_neg (by norm_num), if_neg (by norm_num), if_neg (by norm_num)]
  rw [show bus_32k.cartridge = some cart_32k from rfl]
  show (cart_32k.read_prg ((0x4020 + 0x8000) % 65536)).map (fun v => (v % 256, bus_32k)) = none
  rw [show ((0x4020 + 0x8000) % 65536 : Nat) = 49184 from by norm_num]
  rw [read_prg_32k_out 49184 (by norm_num)]
  rfl

section Claim5

/-- A value below 64 shifted left by 8 lies entirely inside the 0xFF00
mask. -/
lemma shl8_and_ff00 (u : Nat) (hu : u < 64) : (u <<< 8) &&& 0xFF00 = u <<< 8 := by
  have hlt : u <<< 8 < 2 ^ 16 := by
    rw [Nat.shiftLeft_eq]
    norm_num
    omega
  have h1 : (u <<< 8) &&& 0xFFFF = u <<< 8 := by
    have := Nat.and_pow_two_sub_one_of_lt_two_pow hlt
    norm_num at this
    exact this
  have h2 : (u <<< 8) &&& 0xFF = 0 := by
    have := Nat.and_pow_two_sub_one_eq_mod (u <<< 8) 8
    rw [Nat.shiftLeft_eq] at this ⊢
    norm_num at this ⊢
    omega
  calc (u <<< 8) &&& 0xFF00
      = ((u <<< 8) &&& 0xFF00) ||| ((u <<< 8) &&& 0xFF) := by rw [h2, Nat.or_zero]
    _ = (u <<< 8) &&& (0xFF00 ||| 0xFF) := (Nat.and_or_distrib_left _ _ _).symm
    _ = (u <<< 8) &&& 0xFFFF := by rw [show (0xFF00 ||| 0xFF : Nat) = 0xFFFF from by decide]
    _ = u <<< 8 := h1

/-- The second 0x2006 write masks the temporary address with 0xFF00;
when the stored temporary address has bit 15 clear, exactly the six bits
deposited by the first write survive the mask. -/
lemma mask2006 (t u : Nat) (ht : t < 32768) (hu : u < 64) :
    ((t &&& 0x80FF) ||| (u <<< 8)) &&& 0xFF00 = u <<< 8 := by
  have hb : t &&& 0x80FF &&& 0xFF00 = 0 := by
    rw [Nat.land_assoc]
    have he : (0x80FF &&& 0xFF00 : Nat) = 0x8000 := by decide
    rw [he]
    have h15 : t.testBit 15 = false :=
      Nat.testBit_eq_false_of_lt (lt_of_lt_of_le ht (by norm_num))
    have h2p := Nat.and_two_pow t 15
    norm_num [h15] at h2p
    exact h2p
  rw [Nat.and_distrib_right, hb, Nat.zero_or, shl8_and_ff00 u hu]

/-- The first 0x2006 write with the toggle clear, from src/ppu.rs. -/
lemma cpu_write_2006_w0 (s : PPU) (d : Nat) (hw : s.write_toggle = false) :
    s.cpu_write 0x2006 d =
      { s with temp_vram_addr := (s.temp_vram_addr &&& 0x80FF) ||| ((d &&& 0x3F) <<< 8),
               write_toggle := true } := by
  rw [PPU.cpu_write]
  simp [hw]

/-- The second 0x2006 write with the toggle set, from src/ppu.rs. -/
lemma cpu_write_2006_w1 (s : PPU) (d : Nat) (hw : s.write_toggle = true) :
    s.cpu_write 0x2006 d =
      { s with temp_vram_addr := (s.temp_vram_addr &&& 0xFF00) ||| d,
               vram_addr := (s.temp_vram_addr &&& 0xFF00) ||| d,
               write_toggle := false } := by
  rw [PPU.cpu_write]
  simp [hw]

/-- A 0x2007 read advances the VRAM address by 1 or 32 according to CTRL
bit 2, wrapping on 16 bits. -/
lemma cpu_read_2007_vram (t : PPU) :
    (t.cpu_read 0x2007).2.vram_addr
      = (t.vram_addr + (if t.ctrl &&& 0x04 ≠ 0 then 32 else 1)) % 65536 := by
  rw [PPU.cpu_read]
  simp

/-- A 0x2007 read leaves CTRL unchanged. -/
lemma cpu_read_2007_ctrl (t : PPU) : (t.cpu_read 0x2007).2.ctrl = t.ctrl := by
  rw [PPU.cpu_read]
  simp

/-- The PPU-space write never touches the VRAM address register. -/
lemma ppu_write_vram_addr (s : PPU) (a d : Nat) (c : Cartridge) :
    (s.ppu_write a d c).1.vram_addr = s.vram_addr := by
  rw [PPU.ppu_write]
  dsimp only
  repeat' split
  all_goals rfl

/-- The PPU-space write never touches CTRL. -/
lemma ppu_write_ctrl (s : PPU) (a d : Nat) (c : Cartridge) :
    (s.ppu_write a d c).1.ctrl = s.ctrl := by
  rw [PPU.ppu_write]
  dsimp only
  repeat' split
  all_goals rfl

/-- A 0x2007 write advances the VRAM address by 1 or 32 according to
CTRL bit 2, wrapping on 16 bits. -/
lemma cpu_write_2007_vram (t : PPU) (d : Nat) :
    (t.cpu_write 0x2007 d).vram_addr
      = (t.vram_addr + (if t.ctrl &&& 0x04 ≠ 0 then 32 else 1)) % 65536 := by
  rw [PPU.cpu_write]
  simp [ppu_write_vram_addr, ppu_write_ctrl]

/-- C5: with the write toggle clear and the stored temporary address
below 0x8000 (its reachable range: no register write ever sets bit 15),
two writes to 0x2006 carrying first and second leave the VRAM address at
((first AND 0x3F) shifted left 8) OR second, and every following 0x2007
access, read or write, adds exactly 1 when CTRL bit 2 is clear and 32
when it is set; a second read adds the same increment again. -/
theorem c5_vram_address_protocol (s : PPU) (first second d : Nat)
    (hw : s.write_toggle = false) (ht : s.temp_vram_addr < 32768) (hs : second < 256) :
    ((s.cpu_write 0x2006 first).cpu_write 0x2006 second).vram_addr
        = ((first &&& 0x3F) <<< 8) ||| second
    ∧ (((s.cpu_write 0x2006 first).cpu_write 0x2006 second).cpu_read 0x2007).2.vram_addr
        = ((((first &&& 0x3F) <<< 8) ||| second) + (if s.ctrl &&& 0x04 ≠ 0 then 32 else 1))
    ∧ (((s.cpu_write 0x2006 first).cpu_write 0x2006 second).cpu_write 0x2007 d).vram_addr
        = ((((first &&& 0x3F) <<< 8) ||| second) + (if s.ctrl &&& 0x04 ≠ 0 then 32 else 1))
    ∧ ((((s.cpu_write 0x2006 first).cpu_write 0x2006 second).cpu_read
          0x2007).2.cpu_read 0x2007).2.vram_addr
        = ((((first &&& 0x3F) <<< 8) ||| second)
            + (if s.ctrl &&& 0x04 ≠ 0 then 32 else 1)
            + (if s.ctrl &&& 0x04 ≠ 0 then 32 else 1)) := by
  have hu : first &&& 0x3F < 64 := lt_of_le_of_lt Nat.and_le_right (by norm_num)
  have hshl : (first &&& 0x3F) <<< 8 < 16384 := by
    rw [Nat.shiftLeft_eq]
    norm_num
    omega
  have hVlt : ((first &&& 0x3F) <<< 8) ||| second < 16384 := by
    have h14 : (16384 : Nat) = 2 ^ 14 := by norm_num
    rw [h14] at hshl ⊢
    exact Nat.or_lt_two_pow hshl (lt_trans hs (by norm_num))
  have hv2 : ((s.cpu_write 0x2006 first).cpu_write 0x2006 second).vram_addr
      = ((first &&& 0x3F) <<< 8) ||| second := by
    rw [cpu_write_2006_w0 s first hw, cpu_write_2006_w1 _ second rfl]
    dsimp only
    rw [mask2006 s.temp_vram_addr (first &&& 0x3F) ht hu]
  have hc2 : ((s.cpu_write 0x2006 first).cpu_write 0x2006 second).ctrl = s.ctrl := by
    rw [cpu_write_2006_w0 s first hw, cpu_write_2006_w1 _ second rfl]
  have hsum : (((first &&& 0x3F) <<< 8) ||| second)
      + (if s.ctrl &&& 0x04 ≠ 0 then 32 else 1) < 65536 := by
    split <;> omega
  have hread : (((s.cpu_write 0x2006 first).cpu_write 0x2006 second).cpu_read
      0x2007).2.vram_addr
      = ((((first &&& 0x3F) <<< 8) ||| second) + (if s.ctrl &&& 0x04 ≠ 0 then 32 else 1)) := by
    rw [cpu_read_2007_vram, hv2, hc2, Nat.mod_eq_of_lt hsum]
  refine ⟨hv2, hread, ?_, ?_⟩
  · rw [cpu_write_2007_vram, hv2, hc2, Nat.mod_eq_of_lt hsum]
  · rw [cpu_read_2007_vram, hread, cpu_read_2007_ctrl, hc2]
    have hsum2 : (((first &&& 0x3F) <<< 8) ||| second)
        + (if s.ctrl &&& 0x04 ≠ 0 then 32 else 1)
        + (if s.ctrl &&& 0x04 ≠ 0 then 32 else 1) < 65536 := by
      split <;> omega
    rw [Nat.mod_eq_of_lt hsum2]

/-- C5 witness: from the reset PPU state, writing 0x21 then 0x08 to
0x2006 with CTRL 0 sets the VRAM address to 0x2108, and the following
0x2007 accesses advance it by 1 each. -/
theorem c5_witness :
    ((PPU.new.cpu_write 0x2006 0x21).cpu_write 0x2006 0x08).vram_addr
        = ((0x21 &&& 0x3F) <<< 8) ||| 0x08
    ∧ (((PPU.new.cpu_write 0x2006 0x21).cpu_write 0x2006 0x08).cpu_read 0x2007).2.vram_addr
        = ((((0x21 &&& 0x3F) <<< 8) ||| 0x08) + (if PPU.new.ctrl &&& 0x04 ≠ 0 then 32 else 1))
    ∧ (((PPU.new.cpu_write 0x2006 0x21).cpu_write 0x2006 0x08).cpu_write 0x2007 0x55).vram_addr
        = ((((0x21 &&& 0x3F) <<< 8) ||| 0x08) + (if PPU.new.ctrl &&& 0x04 ≠ 0 then 32 else 1))
    ∧ ((((PPU.new.cpu_write 0x2006 0x21).cpu_write 0x2006 0x08).cpu_read
          0x2007).2.cpu_read 0x2007).2.vram_addr
        = ((((0x21 &&& 0x3F) <<< 8) ||| 0x08)
            + (if PPU.new.ctrl &&& 0x04 ≠ 0 then 32 else 1)
            + (if PPU.new.ctrl &&& 0x04 ≠ 0 then 32 else 1)) :=
  c5_vram_address_protocol PPU.new 0x21 0x08 0x55 rfl (by decide) (by norm_num)

end Claim5

section Claim6

/-- The VBlank entry phase: scanline and cycle are untouched, and STATUS
gains bit 7 exactly at scanline 241 dot 1. -/
lemma step_vblank_fields (s : PPU) :
    (s.step_vblank).1.scanline = s.scanline
    ∧ (s.step_vblank).1.cycle = s.cycle
    ∧ (s.step_vblank).1.status
        = (if s.scanline = 241 ∧ s.cycle = 1 then s.status ||| 0x80 else s.status) := by
  unfold PPU.step_vblank
  split <;> simp_all

/-- The advance phase clears STATUS bit 7 exactly at the frame wrap and
leaves STATUS alone otherwise. -/
lemma step_advance_status (s : PPU) :
    (s.step_advance).status =
      if 341 ≤ (s.cycle + 1) % 65536 ∧ 261 ≤ s.scanline + 1 then s.status &&& 0x7F
      else s.status := by
  unfold PPU.step_advance
  dsimp only
  by_cases hA : 341 ≤ (s.cycle + 1) % 65536
  · by_cases hB : (261 : Int) ≤ s.scanline + 1
    · simp [hA, hB]
    · simp [hA, hB]
  · simp [hA]

/-- C6 amended: in the PPU step relation of src/ppu.rs, STATUS bit 7
becomes set exactly at scanline 241 dot 1; it is cleared by the dot
pipeline exactly at the frame wrap, the tick that completes dot 340 of
scanline 260 (or of the initial power-on scanline 261) and returns to
the pre-render scanline; and the dot pipeline never modifies STATUS bits
6 and 5 anywhere, in particular it does not clear them at scanline -1
dot 1. The range hypotheses confine the state to the values the counters
actually take. -/
theorem c6_vblank_status_timing (s : PPU) (cart : Cartridge)
    (hlo : (-1 : Int) ≤ s.scanline) (hhi : s.scanline ≤ 261) (hcy : s.cycle ≤ 340) :
    ((PPU.step s cart).1.status.testBit 7
        = if s.scanline = 241 ∧ s.cycle = 1 then true
          else if 260 ≤ s.scanline ∧ s.cycle = 340 then false
          else s.status.testBit 7)
    ∧ (PPU.step s cart).1.status.testBit 6 = s.status.testBit 6
    ∧ (PPU.step s cart).1.status.testBit 5 = s.status.testBit 5 := by
  have t7 : Nat.testBit 0x80 7 = true := by decide
  have t6 : Nat.testBit 0x80 6 = false := by decide
  have t5 : Nat.testBit 0x80 5 = false := by decide
  have m7 : Nat.testBit 0x7F 7 = false := by decide
  have m6 : Nat.testBit 0x7F 6 = true := by decide
  have m5 : Nat.testBit 0x7F 5 = true := by decide
  have hf : (PPU.step s cart).1 =
      ((if (-1 : Int) ≤ s.scanline ∧ s.scanline < 240 then s.step_visible cart else s
        ).step_vblank).1.step_advance := rfl
  set s1 := if (-1 : Int) ≤ s.scanline ∧ s.scanline < 240 then s.step_visible cart else s
    with hs1
  have hst1 : s1.status = s.status := by
    rw [hs1]; split
    · exact step_visible_status s cart
    · rfl
  have hsl1 : s1.scanline = s.scanline := by
    rw [hs1]; split
    · exact step_visible_scanline s cart
    · rfl
  have hcy1 : s1.cycle = if s.scanline = 0 ∧ s.cycle = 0 then 1 else s.cycle := by
    rw [hs1]; split
    · exact step_visible_cycle s cart
    · rename_i hvis
      rw [if_neg]
      intro h0
      exact hvis ⟨by rw [h0.1]; norm_num, by rw [h0.1]; norm_num⟩
  obtain ⟨hvsl, hvcy, hvst⟩ := step_vblank_fields s1
  rw [hf, step_advance_status, hvsl, hvcy, hvst, hst1, hsl1, hcy1]
  by_cases hskip : s.scanline = 0 ∧ s.cycle = 0
  · obtain ⟨hz, hc0⟩ := hskip
    simp [hz, hc0]
  · rw [if_neg hskip]
    by_cases hA : s.scanline = 241 ∧ s.cycle = 1
    · have hnw : ¬(341 ≤ (s.cycle + 1) % 65536 ∧ (261 : Int) ≤ s.scanline + 1) := by
        intro hw
        rw [hA.2] at hw
        norm_num at hw
      rw [if_neg hnw, if_pos hA, if_pos hA]
      simp [Nat.testBit_lor, t7, t6, t5]
    · by_cases hW : 260 ≤ s.scanline ∧ s.cycle = 340
      · have hw : 341 ≤ (s.cycle + 1) % 65536 ∧ (261 : Int) ≤ s.scanline + 1 := by
          constructor
          · rw [hW.2]
          · omega
        rw [if_pos hw, if_neg hA, if_neg hA,
            if_pos (And.intro hW.1 hW.2)]
        simp [Nat.testBit_land, m7, m6, m5]
      · have hnw : ¬(341 ≤ (s.cycle + 1) % 65536 ∧ (261 : Int) ≤ s.scanline + 1) := by
          intro hw
          have h1 : s.cycle = 340 := by omega
          have h2 : (260 : Int) ≤ s.scanline := by omega
          exact hW ⟨h2, h1⟩
        rw [if_neg hnw, if_neg hA, if_neg hA, if_neg hW]
        exact ⟨rfl, rfl, rfl⟩

/-- C6 witness: from scanline 241 dot 1, one step sets STATUS bit 7 and
leaves bits 6 and 5 as they were. -/
theorem c6_witness :
    (PPU.step ppu241 Cartridge.dummy).1.status.testBit 7 = true
    ∧ (PPU.step ppu241 Cartridge.dummy).1.status.testBit 6 = ppu241.status.testBit 6
    ∧ (PPU.step ppu241 Cartridge.dummy).1.status.testBit 5 = ppu241.status.testBit 5 := by
  obtain ⟨h7, h6, h5⟩ :=
    c6_vblank_status_timing ppu241 Cartridge.dummy (by decide) (by decide) (by decide)
  refine ⟨?_, h6, h5⟩
  rw [h7]
  decide

end Claim6

section Claim7

/-- C7 amended: a BNE with offset 0x7F located at 0x80FE costs 3 cycles
when taken and 2 when not taken. The branch logic of src/cpu.rs charges
the extra page-cross cycle by comparing the page of the PC after the
operand, here 0x8100, with the page of the target, here 0x817F; they
agree, so the taken branch costs 3, not the 4 the claim states. -/
theorem c7_branch_cycles (c : CPU) (mem : Nat → Nat)
    (hpc : c.pc = 0x80FE) (hop : mem 0x80FE = 0xD0) (hoff : mem 0x80FF = 0x7F) :
    (CPU.step c mem).2 = if c.status &&& 0x02 = 0 then 3 else 2 := by
  by_cases hz : c.status &&& 0x02 = 0 <;>
    simp +decide [CPU.step, CPU.execute_instruction, CPU.branch, CPU.immediate,
      CPU.get_flag, hpc, hop, hoff, hz]

/-- C7 witness: the concrete taken case costs 3 cycles. -/
theorem c7_witness :
    (CPU.step cpu_bne mem_bne).2 = if cpu_bne.status &&& 0x02 = 0 then 3 else 2 :=
  c7_branch_cycles cpu_bne mem_bne rfl rfl rfl

end Claim7

section Claim9

/-- C9 amended: writing v to 0x3F10, 0x3F14, 0x3F18 or 0x3F1C through
the PPU memory map and reading 0x3F00, 0x3F04, 0x3F08 or 0x3F0C
respectively returns v AND 0x30 when greyscale (MASK bit 0) is set and v
AND 0x3F when it is clear; the low six bits of v always survive, the top
two never do. -/
theorem c9_palette_mirror_greyscale (s : PPU) (cart : Cartridge) (v k : Nat)
    (hk : k < 4) :
    PPU.ppu_read ((s.ppu_write (0x3F10 + 4 * k) v cart).1) (0x3F00 + 4 * k)
        ((s.ppu_write (0x3F10 + 4 * k) v cart).2)
      = v &&& (if s.mask &&& 0x01 ≠ 0 then 0x30 else 0x3F) := by
  interval_cases k <;>
    simp +decide [PPU.ppu_write, PPU.ppu_read]

/-- C9 witness: the concrete mirror pair 0x3F14 and 0x3F04 with
greyscale off returns the written byte masked with 0x3F. -/
theorem c9_witness :
    PPU.ppu_read ((PPU.new.ppu_write (0x3F10 + 4 * 1) 0x40 Cartridge.dummy).1)
        (0x3F00 + 4 * 1) ((PPU.new.ppu_write (0x3F10 + 4 * 1) 0x40 Cartridge.dummy).2)
      = 0x40 &&& (if PPU.new.mask &&& 0x01 ≠ 0 then 0x30 else 0x3F) :=
  c9_palette_mirror_greyscale PPU.new Cartridge.dummy 0x40 1 (by norm_num)

end Claim9

/-- C9 counterexample: with greyscale off, writing 0x40 to 0x3F10 and
reading 0x3F00 returns 0, not 0x40: palette reads in src/ppu.rs always
mask with 0x3F even when MASK bit 0 is clear. -/
theorem c9_palette_readback_counterexample :
    PPU.new.mask &&& 0x01 = 0
    ∧ PPU.ppu_read (PPU.ppu_write PPU.new 0x3F10 0x40 Cartridge.dummy).1
        0x3F00 Cartridge.dummy = 0
    ∧ PPU.ppu_read (PPU.ppu_write PPU.new 0x3F10 0x40 Cartridge.dummy).1
        0x3F00 Cartridge.dummy ≠ 0x40 := by
  refine ⟨rfl, by decide, by decide⟩

end Zetr
